import Mathlib

set_option maxRecDepth 8192

/-!
Verification development for the Citra GPU texture/surface runtime
(`video_core/renderer_vulkan/vk_texture_runtime.cpp`,
`video_core/renderer_opengl/gl_texture_runtime.cpp`,
`video_core/rasterizer_cache/texture_runtime.cpp` and their headers).

The definitions below form a shallow embedding of the data model and of the
operations of the texture runtime.  Pure computations (the depth-stencil
unpacking loop, the recycler bookkeeping) are embedded directly; the GPU
side effects issued through the host API are embedded as an explicit trace
of abstract events so that statements about which commands an operation
records can be proved.
-/

namespace VideoCore

/-- Modelled from the spec: the abstract pixel-format enumeration of the
rasterizer cache (spec section 3, `PixelFormat`; the enumeration lives in
`video_core/rasterizer_cache/pixel_format.h`, which is not part of the
source tree).  The constructor list follows the spec together with the
format tables of `gl_texture_runtime.cpp` (five color formats, the
texture-only formats, D16, D24 and D24S8). -/
inductive PixelFormat where
  | RGBA8
  | RGB8
  | RGB5A1
  | RGB565
  | RGBA4
  | IA8
  | RG8
  | I8
  | A8
  | IA4
  | I4
  | A4
  | ETC1
  | ETC1A4
  | D16
  | D24
  | D24S8
  | Invalid
  deriving DecidableEq, Repr, Inhabited

/-- Surface classification used throughout the runtime (spec section 3). -/
inductive SurfaceType where
  | Color
  | Texture
  | Fill
  | Depth
  | DepthStencil
  | Invalid
  deriving DecidableEq, Repr, Inhabited

/-- Modelled from the spec: the `SurfaceType` classification of each pixel
format (spec section 3: color formats, texture formats, `D16`/`D24` are
depth formats and `D24S8` is the depth-stencil format; `GetFormatType` is
declared in `pixel_format.h`, outside the source tree). -/
def GetFormatType : PixelFormat → SurfaceType
  | .RGBA8 | .RGB8 | .RGB5A1 | .RGB565 | .RGBA4 => .Color
  | .IA8 | .RG8 | .I8 | .A8 | .IA4 | .I4 | .A4 | .ETC1 | .ETC1A4 => .Texture
  | .D16 | .D24 => .Depth
  | .D24S8 => .DepthStencil
  | .Invalid => .Invalid

/-- 2D texture dimensionality (`VideoCore::TextureType`). -/
inductive TextureType where
  | Texture2D
  | CubeMap
  deriving DecidableEq, Repr, Inhabited

/-- `Common::Rectangle<u32>` as used by the runtime: `left`, `top`, `right`,
`bottom` with `bottom < top` (framebuffer convention). -/
structure Rect2D where
  left : Nat
  top : Nat
  right : Nat
  bottom : Nat
  deriving DecidableEq, Repr, Inhabited

def Rect2D.GetWidth (r : Rect2D) : Nat := r.right - r.left

def Rect2D.GetHeight (r : Rect2D) : Nat := r.top - r.bottom

/-- `operator*` of `Common::Rectangle`: scales every coordinate. -/
def Rect2D.scale (r : Rect2D) (s : Nat) : Rect2D :=
  ⟨r.left * s, r.top * s, r.right * s, r.bottom * s⟩

/-- Membership of a pixel in a rectangle (used to state clear effects). -/
def Rect2D.containsPix (r : Rect2D) (x y : Nat) : Prop :=
  r.left ≤ x ∧ x < r.right ∧ r.bottom ≤ y ∧ y < r.top

instance (r : Rect2D) (x y : Nat) : Decidable (r.containsPix x y) := by
  unfold Rect2D.containsPix
  infer_instance

/-- `r1` is a sub-rectangle of `r2`. -/
def Rect2D.subRect (r1 r2 : Rect2D) : Prop :=
  r2.left ≤ r1.left ∧ r1.right ≤ r2.right ∧ r2.bottom ≤ r1.bottom ∧ r1.top ≤ r2.top

instance (r1 r2 : Rect2D) : Decidable (r1.subRect r2) := by
  unfold Rect2D.subRect
  infer_instance

/-- Modelled from the spec: the logical parameters of a surface (spec
section 3, `Surface`: width/height/stride describe the unscaled geometry,
`res_scale` the resolution-scale factor; `SurfaceParams` is declared in the
rasterizer-cache headers outside the source tree). -/
structure SurfaceParams where
  width : Nat
  height : Nat
  stride : Nat
  levels : Nat
  res_scale : Nat
  pixel_format : PixelFormat
  texture_type : TextureType
  type : SurfaceType
  deriving DecidableEq, Repr, Inhabited

/-- Modelled from the spec: actual GPU image width is `width * res_scale`
(spec section 3). -/
def SurfaceParams.GetScaledWidth (p : SurfaceParams) : Nat := p.width * p.res_scale

/-- Modelled from the spec: actual GPU image height is `height * res_scale`
(spec section 3). -/
def SurfaceParams.GetScaledHeight (p : SurfaceParams) : Nat := p.height * p.res_scale

/-- Modelled from the spec: the full scaled extent of the surface as a
rectangle, `Rect2D{0, scaled_height, scaled_width, 0}`. -/
def SurfaceParams.GetScaledRect (p : SurfaceParams) : Rect2D :=
  ⟨0, p.GetScaledHeight, p.GetScaledWidth, 0⟩

/-- `VideoCore::BufferTextureCopy`. -/
structure BufferTextureCopy where
  buffer_offset : Nat
  buffer_size : Nat
  texture_rect : Rect2D
  texture_level : Nat
  deriving DecidableEq, Repr, Inhabited

/-- `VideoCore::TextureClear`. -/
structure TextureClear where
  texture_level : Nat
  texture_rect : Rect2D
  deriving DecidableEq, Repr, Inhabited

/-- `VideoCore::TextureCopy`. -/
structure TextureCopy where
  src_level : Nat
  dst_level : Nat
  src_offset_x : Nat
  src_offset_y : Nat
  dst_offset_x : Nat
  dst_offset_y : Nat
  extent_width : Nat
  extent_height : Nat
  deriving DecidableEq, Repr, Inhabited

/-- `VideoCore::TextureBlit`. -/
structure TextureBlit where
  src_level : Nat
  dst_level : Nat
  src_layer : Nat
  dst_layer : Nat
  src_rect : Rect2D
  dst_rect : Rect2D
  deriving DecidableEq, Repr, Inhabited

end VideoCore

namespace Vulkan

/-- The host `vk::Format` values that appear in the runtime. -/
inductive Format where
  | eUndefined
  | eR8G8B8A8Unorm
  | eR5G6B5UnormPack16
  | eR5G5B5A1UnormPack16
  | eR4G4B4A4UnormPack16
  | eR32Uint
  | eD16Unorm
  | eX8D24UnormPack32
  | eD32Sfloat
  | eD24UnormS8Uint
  | eD32SfloatS8Uint
  deriving DecidableEq, Repr, Inhabited

/-- `vk::Filter`. -/
inductive Filter where
  | eNearest
  | eLinear
  deriving DecidableEq, Repr, Inhabited

/-- The aspect classes an image aspect mask can take in the runtime
(`eColor`, `eDepth`, `eDepth | eStencil`). -/
inductive Aspect where
  | color
  | depth
  | depthStencil
  deriving DecidableEq, Repr, Inhabited

/-- `MakeAspect` (vk_texture_runtime.cpp): maps a surface type to the image
aspect flags; the default branch is `UNREACHABLE()`, modelled as `none`. -/
def MakeAspect : VideoCore.SurfaceType → Option Aspect
  | .Color | .Texture | .Fill => some .color
  | .Depth => some .depth
  | .DepthStencil => some .depthStencil
  | .Invalid => none

/-- `MakeFilter` (vk_texture_runtime.cpp): depth formats get nearest
filtering, everything else linear. -/
def MakeFilter : VideoCore.PixelFormat → Filter
  | .D16 | .D24 | .D24S8 => .eNearest
  | _ => .eLinear

/-- Modelled from the spec: the aspect of a host format (helper
`GetImageAspect` of `vk_instance.h`, outside the source tree): depth
formats map to the depth aspect, `D24S8`/`D32S8` carry depth and stencil,
everything else is color. -/
def GetImageAspect : Format → Aspect
  | .eD16Unorm | .eX8D24UnormPack32 | .eD32Sfloat => .depth
  | .eD24UnormS8Uint | .eD32SfloatS8Uint => .depthStencil
  | _ => .color

/-- `FormatTraits` of `vk_instance.h` (modelled from the spec: per-format
capabilities of the host, with a native format and a fallback). -/
structure FormatTraits where
  transfer_support : Bool
  blit_support : Bool
  attachment_support : Bool
  storage_support : Bool
  native : Format
  fallback : Format
  deriving DecidableEq, Repr, Inhabited

/-- The per-device constant data the runtime consults (`Instance`): the
format traits table. -/
structure Instance where
  traits : VideoCore.PixelFormat → FormatTraits

/-- `ImageAlloc` (vk_texture_runtime.h): the handle bundle of one physical
GPU image.  Host handles are modelled as natural numbers; the optional
views are `none` when the corresponding view was not created. -/
structure ImageAlloc where
  image : Nat
  image_view : Nat
  base_view : Option Nat
  depth_view : Option Nat
  stencil_view : Option Nat
  storage_view : Option Nat
  allocation : Nat
  format : Format
  aspect : Aspect
  deriving DecidableEq, Repr, Inhabited

/-- `HostTextureTag` (vk_texture_runtime.h, lines 50-62): the value-equality
key of the texture recycler as used by `vk_texture_runtime.cpp`. -/
structure HostTextureTag where
  format : Format
  pixel_format : VideoCore.PixelFormat
  type : VideoCore.TextureType
  width : Nat
  height : Nat
  deriving DecidableEq, Repr, Inhabited

end Vulkan

namespace Vulkan2

/-- `HostTextureTag` of the revised Vulkan texture runtime header
(src/unnamed/part_001, lines 51-64): native host format, logical pixel
format, texture dimensionality, width, height and mip level count, compared
field-wise by the defaulted `operator<=>`. -/
structure HostTextureTag where
  format : Vulkan.Format
  pixel_format : VideoCore.PixelFormat
  type : VideoCore.TextureType
  width : Nat
  height : Nat
  levels : Nat
  deriving DecidableEq, Repr, Inhabited

end Vulkan2

/-- The abstract GPU commands and constructions an operation of the runtime
records.  Image handles are natural numbers. -/
inductive Event where
  | constructSurface (params : VideoCore.SurfaceParams) (format : Vulkan.Format) (image : Nat)
  | initLayoutGeneral (image : Nat)
  | copyBufferToImage (image : Nat) (rect : VideoCore.Rect2D) (level : Nat) (numCopies : Nat)
  | copyImageToBuffer (image : Nat) (rect : VideoCore.Rect2D) (level : Nat)
  | blitImage (src : Nat) (dst : Nat) (srcRect dstRect : VideoCore.Rect2D) (filter : Vulkan.Filter)
  | computeBlitD24S8toR32 (src : Nat) (dst : Nat)
  | clearImage (image : Nat) (level : Nat) (value : Nat)
  | renderpassClear (image : Nat) (renderArea : VideoCore.Rect2D) (value : Nat)
  | copyImage (src : Nat) (dst : Nat)
  deriving DecidableEq, Repr

/-- Events that move pixel data between images and buffers. -/
def Event.isTransfer : Event → Bool
  | .copyBufferToImage _ _ _ _ => true
  | .copyImageToBuffer _ _ _ => true
  | .blitImage _ _ _ _ _ => true
  | .computeBlitD24S8toR32 _ _ => true
  | .clearImage _ _ _ => true
  | .renderpassClear _ _ _ => true
  | .copyImage _ _ => true
  | _ => false

/-- Surface-construction events. -/
def Event.isConstruct : Event → Bool
  | .constructSurface _ _ _ => true
  | _ => false

namespace Vulkan

/-- The mutable state of the Vulkan `TextureRuntime` relevant to allocation:
the recycler multimap (as an association list), a supply of fresh host
handles, and the number of driver-level image allocations performed. -/
structure AllocState where
  texture_recycler : List (HostTextureTag × ImageAlloc)
  next_handle : Nat
  driver_allocs : Nat
  deriving Repr, Inhabited

/-- `unordered_multimap::find` followed by `erase`: returns some matching
entry together with the recycler with that entry removed. -/
def findRecycled : List (HostTextureTag × ImageAlloc) → HostTextureTag →
    Option (ImageAlloc × List (HostTextureTag × ImageAlloc))
  | [], _ => none
  | (t, a) :: rest, key =>
    if t = key then some (a, rest)
    else
      match findRecycled rest key with
      | some (a2, rest2) => some (a2, (t, a) :: rest2)
      | none => none

/-- Number of recycler entries carrying a given tag. -/
def countTag (l : List (HostTextureTag × ImageAlloc)) (key : HostTextureTag) : Nat :=
  (l.filter fun p => decide (p.1 = key)).length

/-- `std::bit_width`. -/
def bitWidth (n : Nat) : Nat := if n = 0 then 0 else Nat.log2 n + 1

/-- The fresh-allocation path of `TextureRuntime::Allocate`
(vk_texture_runtime.cpp lines 178-294): creates the image, the full view, a
base-mip view when there is more than one level, depth/stencil views for
stencil formats, a storage view for RGBA8, counts one driver allocation and
records the transition of the new image to the general layout. -/
def freshAlloc (st : AllocState) (width height : Nat)
    (pixel_format : VideoCore.PixelFormat) (type : VideoCore.TextureType)
    (format : Format) : AllocState × ImageAlloc × List Event :=
  let h := st.next_handle
  let aspect := GetImageAspect format
  let levels := bitWidth (max width height)
  let create_storage_view := pixel_format = VideoCore.PixelFormat.RGBA8
  let has_stencil := aspect = Aspect.depthStencil
  let alloc : ImageAlloc :=
    { image := h
      image_view := h + 1
      base_view := if 1 < levels then some (h + 2) else none
      depth_view := if has_stencil then some (h + 3) else none
      stencil_view := if has_stencil then some (h + 4) else none
      storage_view := if create_storage_view then some (h + 5) else none
      allocation := h + 6
      format := format
      aspect := aspect }
  ({ st with next_handle := h + 7, driver_allocs := st.driver_allocs + 1 },
   alloc,
   [Event.initLayoutGeneral h])

/-- `TextureRuntime::Allocate` (vk_texture_runtime.cpp lines 154-295, the
overload taking an explicit host format): asserts the pixel format is not
`Invalid` (`none` models the assertion failure), builds the recycler tag,
and either claims a matching recycled allocation (removing it from the
recycler, without any driver call) or creates a fresh one. -/
def Allocate (st : AllocState) (width height : Nat)
    (pixel_format : VideoCore.PixelFormat) (type : VideoCore.TextureType)
    (format : Format) : Option (AllocState × ImageAlloc × List Event) :=
  if pixel_format = VideoCore.PixelFormat.Invalid then none
  else
    let key : HostTextureTag :=
      { format := format, pixel_format := pixel_format, type := type,
        width := width, height := height }
    match findRecycled st.texture_recycler key with
    | some (alloc, rest) => some ({ st with texture_recycler := rest }, alloc, [])
    | none => some (freshAlloc st width height pixel_format type format)

/-- `TextureRuntime::Allocate` (vk_texture_runtime.cpp lines 139-151, the
overload that derives the host format from the format traits): picks the
native format when the traits are suitable, the fallback otherwise. -/
def AllocateWithTraits (inst : Instance) (st : AllocState) (width height : Nat)
    (format : VideoCore.PixelFormat) (type : VideoCore.TextureType) :
    Option (AllocState × ImageAlloc × List Event) := do
  let traits := inst.traits format
  let aspect ← MakeAspect (VideoCore.GetFormatType format)
  let is_suitable := traits.transfer_support ∧ traits.attachment_support ∧
    (traits.blit_support ∨ aspect = Aspect.depth ∨ aspect = Aspect.depthStencil)
  let vk_format := if is_suitable then traits.native else traits.fallback
  Allocate st width height format type vk_format

/-- `TextureRuntime::Recycle` (vk_texture_runtime.cpp lines 297-299):
inserts the allocation back into the recycler multimap under the tag. -/
def Recycle (st : AllocState) (tag : HostTextureTag) (alloc : ImageAlloc) : AllocState :=
  { st with texture_recycler := st.texture_recycler ++ [(tag, alloc)] }

/-- A `Vulkan::Surface`: its logical parameters plus the owned image
allocation. -/
structure Surface where
  params : VideoCore.SurfaceParams
  alloc : ImageAlloc
  deriving Repr, Inhabited

/-- The `Surface(params, runtime)` constructor (vk_texture_runtime.cpp
lines 730-738): allocates through the traits overload when the pixel
format is not `Invalid`.  Emits a `constructSurface` event carrying the
parameters and the image the surface received. -/
def mkSurface (inst : Instance) (st : AllocState) (params : VideoCore.SurfaceParams) :
    Option (AllocState × Surface × List Event) :=
  if params.pixel_format = VideoCore.PixelFormat.Invalid then
    some (st, { params := params, alloc := default }, [])
  else
    match AllocateWithTraits inst st params.GetScaledWidth params.GetScaledHeight
        params.pixel_format params.texture_type with
    | some (st2, alloc, evs) =>
      some (st2, { params := params, alloc := alloc },
        evs ++ [Event.constructSurface params alloc.format alloc.image])
    | none => none

/-- The `Surface(params, format, usage, runtime)` constructor
(vk_texture_runtime.cpp lines 740-748): allocates with the explicitly
given host format when it is not `eUndefined`. -/
def mkSurfaceWithFormat (st : AllocState) (params : VideoCore.SurfaceParams)
    (format : Format) : Option (AllocState × Surface × List Event) :=
  if format = Format.eUndefined then
    some (st, { params := params, alloc := default }, [])
  else
    match Allocate st params.GetScaledWidth params.GetScaledHeight
        params.pixel_format params.texture_type format with
    | some (st2, alloc, evs) =>
      some (st2, { params := params, alloc := alloc },
        evs ++ [Event.constructSurface params alloc.format alloc.image])
    | none => none

/-- `Surface::~Surface` (vk_texture_runtime.cpp lines 750-760): when the
pixel format is not `Invalid`, hands the allocation back to the recycler
keyed by the tag built from the allocation format, pixel format, texture
type and the scaled dimensions. -/
def surfaceDtor (st : AllocState) (s : Surface) : AllocState :=
  if s.params.pixel_format = VideoCore.PixelFormat.Invalid then st
  else
    let tag : HostTextureTag :=
      { format := s.alloc.format, pixel_format := s.params.pixel_format,
        type := s.params.texture_type, width := s.params.GetScaledWidth,
        height := s.params.GetScaledHeight }
    Recycle st tag s.alloc

/-- `TextureRuntime::BlitTextures` (vk_texture_runtime.cpp lines 568-674):
records a blit from source to dest with the filter chosen by `MakeFilter`
on the source pixel format; the aspect capture evaluates `MakeAspect`
eagerly, so an invalid surface type aborts (`none`). -/
def BlitTextures (st : AllocState) (source dest : Surface)
    (blit : VideoCore.TextureBlit) : Option (AllocState × List Event × Bool) :=
  match MakeAspect source.params.type with
  | none => none
  | some _ =>
    some (st,
      [Event.blitImage source.alloc.image dest.alloc.image blit.src_rect blit.dst_rect
        (MakeFilter source.params.pixel_format)],
      true)

/-- `TextureRuntime::CopyTextures` (vk_texture_runtime.cpp lines 456-566):
records an image-to-image copy; the aspect capture evaluates `MakeAspect`
eagerly, so an invalid surface type aborts (`none`). -/
def CopyTextures (st : AllocState) (source dest : Surface)
    (copy : VideoCore.TextureCopy) : Option (AllocState × List Event × Bool) :=
  match MakeAspect source.params.type with
  | none => none
  | some _ =>
    some (st, [Event.copyImage source.alloc.image dest.alloc.image], true)

/-- `TextureRuntime::ClearTexture` (vk_texture_runtime.cpp lines 335-413):
when the clear rectangle covers the whole scaled extent, records a
clear-image command (fast path, with eager `MakeAspect`); otherwise falls
back to `ClearTextureWithRenderpass`, whose render area is exactly the
clear rectangle (lines 415-454).  Returns `true` in both cases. -/
def ClearTexture (st : AllocState) (s : Surface) (clear : VideoCore.TextureClear)
    (value : Nat) : Option (AllocState × List Event × Bool) :=
  if clear.texture_rect = s.params.GetScaledRect then
    match MakeAspect s.params.type with
    | none => none
    | some _ =>
      some (st, [Event.clearImage s.alloc.image clear.texture_level value], true)
  else
    some (st, [Event.renderpassClear s.alloc.image clear.texture_rect value], true)

/-- The pixel-level effect of a clear event on an image's pixel grid: a
render-pass clear writes the clear value exactly inside its render area, a
clear-image command writes the whole image; other events are not clears of
this image and leave the grid alone in this model. -/
def clearEffect (img : Nat) (g : Nat → Nat → Nat) : Event → (Nat → Nat → Nat)
  | .renderpassClear i area v =>
    if i = img then fun x y => if area.containsPix x y then v else g x y else g
  | .clearImage i _ v => if i = img then fun _ _ => v else g
  | _ => g

/-- `Surface::Upload` / `Surface::ScaledUpload` (vk_texture_runtime.cpp
lines 763-863 and 961-988), with an explicit fuel bounding the recursion
depth (the scaled path uploads into an ephemeral unscaled surface, whose
own upload is direct, so depth 2 always suffices).  Returns the state and
the recorded events; `none` models the aborting paths (fuel exhaustion
never occurs at the depths used by the code).  The depth-stencil
early-return when the hardware cannot blit depth is modelled faithfully. -/
def UploadF (inst : Instance) : Nat → AllocState → Surface →
    VideoCore.BufferTextureCopy → Option (AllocState × List Event)
  | 0, _, _, _ => none
  | fuel + 1, st, s, up =>
    if s.params.type = VideoCore.SurfaceType.DepthStencil ∧
        (inst.traits s.params.pixel_format).blit_support = false then
      some (st, [])
    else if s.params.res_scale ≠ 1 then
      let rect_width := up.texture_rect.GetWidth
      let rect_height := up.texture_rect.GetHeight
      let scaled_rect := up.texture_rect.scale s.params.res_scale
      let unscaled_rect : VideoCore.Rect2D := ⟨0, rect_height, rect_width, 0⟩
      let unscaled_params : VideoCore.SurfaceParams :=
        { s.params with
          width := rect_width
          stride := rect_width
          height := rect_height
          res_scale := 1 }
      match mkSurface inst st unscaled_params with
      | none => none
      | some (st1, unscaled_surface, evs1) =>
        match UploadF inst fuel st1 unscaled_surface
            { buffer_offset := up.buffer_offset, buffer_size := up.buffer_size,
              texture_rect := unscaled_rect, texture_level := 0 } with
        | none => none
        | some (st2, evs2) =>
          match BlitTextures st2 unscaled_surface s
              { src_level := 0, dst_level := up.texture_level, src_layer := 0,
                dst_layer := 0, src_rect := unscaled_rect, dst_rect := scaled_rect } with
          | none => none
          | some (st3, evs3, _) => some (st3, evs1 ++ evs2 ++ evs3)
    else
      let num_copies := if s.alloc.aspect = Aspect.depthStencil then 2 else 1
      some (st, [Event.copyBufferToImage s.alloc.image up.texture_rect
        up.texture_level num_copies])

/-- `Surface::Download` / `ScaledDownload` / `DepthStencilDownload`
(vk_texture_runtime.cpp lines 866-949, 990-1019 and 1021-1071), with an
explicit fuel bounding the recursion depth.  Depth-stencil surfaces go
through the compute-conversion fallback: a `R32Uint` color surface is
created, the depth-stencil image is converted into it by the compute blit,
the converted image is downscaled by an ordinary blit when the resolution
scale is not 1, and only the converted image is copied into the staging
buffer. -/
def DownloadF (inst : Instance) : Nat → AllocState → Surface →
    VideoCore.BufferTextureCopy → Option (AllocState × List Event)
  | 0, _, _, _ => none
  | fuel + 1, st, s, dl =>
    if s.params.type = VideoCore.SurfaceType.DepthStencil then
      let rect_width := dl.texture_rect.GetWidth
      let rect_height := dl.texture_rect.GetHeight
      let scaled_rect := dl.texture_rect.scale s.params.res_scale
      let unscaled_rect : VideoCore.Rect2D := ⟨0, rect_height, rect_width, 0⟩
      let r32_params : VideoCore.SurfaceParams :=
        { s.params with
          width := scaled_rect.GetWidth
          stride := scaled_rect.GetWidth
          height := scaled_rect.GetHeight
          type := VideoCore.SurfaceType.Color
          res_scale := 1 }
      match mkSurfaceWithFormat st r32_params Format.eR32Uint with
      | none => none
      | some (st1, r32_surface, evs1) =>
        let r32_scaled_rect : VideoCore.Rect2D :=
          ⟨0, scaled_rect.GetHeight, scaled_rect.GetWidth, 0⟩
        let evs2 := [Event.computeBlitD24S8toR32 s.alloc.image r32_surface.alloc.image]
        let is_scaled := s.params.res_scale ≠ 1
        let step3 : Option (AllocState × List Event) :=
          if is_scaled then
            match BlitTextures st1 r32_surface r32_surface
                { src_level := 0, dst_level := 1, src_layer := 0, dst_layer := 0,
                  src_rect := r32_scaled_rect, dst_rect := unscaled_rect } with
            | none => none
            | some (st2, evs3, _) => some (st2, evs3)
          else some (st1, [])
        match step3 with
        | none => none
        | some (st2, evs3) =>
          match DownloadF inst fuel st2 r32_surface
              { buffer_offset := dl.buffer_offset, buffer_size := dl.buffer_size,
                texture_rect := unscaled_rect,
                texture_level := if is_scaled then 1 else 0 } with
          | none => none
          | some (st3, evs4) => some (st3, evs1 ++ evs2 ++ evs3 ++ evs4)
    else if s.params.res_scale ≠ 1 then
      let rect_width := dl.texture_rect.GetWidth
      let rect_height := dl.texture_rect.GetHeight
      let scaled_rect := dl.texture_rect.scale s.params.res_scale
      let unscaled_rect : VideoCore.Rect2D := ⟨0, rect_height, rect_width, 0⟩
      let unscaled_params : VideoCore.SurfaceParams :=
        { s.params with
          width := rect_width
          stride := rect_width
          height := rect_height
          res_scale := 1 }
      match mkSurface inst st unscaled_params with
      | none => none
      | some (st1, unscaled_surface, evs1) =>
        match BlitTextures st1 s unscaled_surface
            { src_level := dl.texture_level, dst_level := 0, src_layer := 0,
              dst_layer := 0, src_rect := scaled_rect, dst_rect := unscaled_rect } with
        | none => none
        | some (st2, evs2, _) =>
          match DownloadF inst fuel st2 unscaled_surface
              { buffer_offset := dl.buffer_offset, buffer_size := dl.buffer_size,
                texture_rect := unscaled_rect, texture_level := 0 } with
          | none => none
          | some (st3, evs3) => some (st3, evs1 ++ evs2 ++ evs3)
    else
      some (st, [Event.copyImageToBuffer s.alloc.image dl.texture_rect dl.texture_level])

/-! ### Depth-stencil unpacking (`Surface::UnpackDepthStencil`) -/

/-- CPU-visible staging memory, byte addressed. -/
def Mem : Type := Nat → Nat

/-- A byte read (bytes are `std::byte`, always reduced modulo 256). -/
def readByte (m : Mem) (a : Nat) : Nat := m a % 256

/-- `VideoCore::MakeInt<u32>`: a 4-byte little-endian load. -/
def readWord (m : Mem) (a : Nat) : Nat :=
  readByte m a + 256 * readByte m (a + 1) + 65536 * readByte m (a + 2) +
    16777216 * readByte m (a + 3)

/-- A byte store. -/
def writeByte (m : Mem) (a v : Nat) : Mem :=
  fun x => if x = a then v else m x

/-- `std::memcpy(ptr, &d24, 4)`: a 4-byte little-endian store. -/
def writeWord (m : Mem) (a v : Nat) : Mem :=
  writeByte (writeByte (writeByte (writeByte m a (v % 256)) (a + 1) (v / 256 % 256))
    (a + 2) (v / 65536 % 256)) (a + 3) (v / 16777216 % 256)

/-- One iteration of the unpack loop (vk_texture_runtime.cpp lines
1080-1087): load the interleaved word, store its low byte at the stencil
cursor, then store the word shifted right by 8 back at the depth cursor. -/
def unpackD24S8Step (m : Mem) (dOff sOff : Nat) : Mem :=
  let d24s8 := readWord m dOff
  let d24 := d24s8 / 256
  let m1 := writeByte m sOff (d24s8 % 256)
  writeWord m1 dOff d24

/-- The unpack loop, iterated `n` times with the depth cursor advancing by
4 and the stencil cursor by 1 per iteration. -/
def unpackD24S8Loop : Nat → Mem → Nat → Nat → Mem
  | 0, m, _, _ => m
  | n + 1, m, dOff, sOff => unpackD24S8Loop n (unpackD24S8Step m dOff sOff) (dOff + 4) (sOff + 1)

/-- Failure modes of `UnpackDepthStencil`: the `UNREACHABLE()` default
branch for unsupported destination formats, and the trailing `ASSERT`. -/
inductive UnpackError where
  | unimplementedConversion
  | assertFailed
  deriving DecidableEq, Repr, Inhabited

/-- `Surface::UnpackDepthStencil` (vk_texture_runtime.cpp lines 1073-1098):
in-place unpack of interleaved D24S8 texels.  The stencil cursor starts at
`4 * size / 5` and the loop runs until it reaches `size`; any destination
format other than `eD24UnormS8Uint` hits the `UNREACHABLE()` default
branch.  Returns the final memory and the returned `depth_offset`. -/
def UnpackDepthStencil (m : Mem) (size : Nat) (dest : Format) :
    Except UnpackError (Mem × Nat) :=
  let sOff := 4 * size / 5
  match dest with
  | .eD24UnormS8Uint =>
    let n := size - sOff
    let m2 := unpackD24S8Loop n m 0 sOff
    let depth_offset := 4 * n
    if depth_offset = 4 * size / 5 then Except.ok (m2, depth_offset)
    else Except.error UnpackError.assertFailed
  | _ => Except.error UnpackError.unimplementedConversion

end Vulkan

namespace OpenGL

/-- `GLbitfield` mask classes produced by `MakeBufferMask`. -/
inductive BufferMask where
  | color
  | depth
  | depthStencil
  deriving DecidableEq, Repr, Inhabited

/-- `MakeBufferMask` (gl_texture_runtime.cpp lines 45-60 and
rasterizer_cache/texture_runtime.cpp lines 12-27): the default branch is
`UNREACHABLE_MSG`, modelled as `none`. -/
def MakeBufferMask : VideoCore.SurfaceType → Option BufferMask
  | .Color | .Texture | .Fill => some .color
  | .Depth => some .depth
  | .DepthStencil => some .depthStencil
  | .Invalid => none

/-- The filter chosen by the OpenGL blit paths:
`buffer_mask == GL_COLOR_BUFFER_BIT ? GL_LINEAR : GL_NEAREST`. -/
def blitFilter (mask : BufferMask) : Vulkan.Filter :=
  if mask = BufferMask.color then Vulkan.Filter.eLinear else Vulkan.Filter.eNearest

/-- An OpenGL surface: parameters plus the GL texture handle. -/
structure Surface where
  params : VideoCore.SurfaceParams
  texture : Nat
  deriving Repr, Inhabited

/-- `TextureRuntime::ClearTexture` (gl_texture_runtime.cpp lines 160-219):
sets the scissor to the clear rectangle, clears the bound attachment, and
returns `true`; the default switch branch is `UNREACHABLE_MSG` (`none`). -/
def ClearTexture (s : Surface) (clear : VideoCore.TextureClear) (value : Nat) :
    Option (List Event × Bool) :=
  match s.params.type with
  | .Color | .Texture | .Fill | .Depth | .DepthStencil =>
    some ([Event.renderpassClear s.texture clear.texture_rect value], true)
  | .Invalid => none

/-- `TextureRuntime::CopyTextures` (gl_texture_runtime.cpp lines 221-232):
a `glCopyImageSubData` call; always returns `true`. -/
def CopyTextures (source dest : Surface) (copy : VideoCore.TextureCopy) :
    List Event × Bool :=
  ([Event.copyImage source.texture dest.texture], true)

/-- `TextureRuntime::BlitTextures` (gl_texture_runtime.cpp lines 234-267):
binds the framebuffers and blits with linear filtering exactly for
color-masked surfaces; an invalid surface type aborts in
`BindFramebuffer` (`none`). -/
def BlitTextures (source dest : Surface) (blit : VideoCore.TextureBlit) :
    Option (List Event × Bool) :=
  match MakeBufferMask source.params.type with
  | none => none
  | some mask =>
    some ([Event.blitImage source.texture dest.texture blit.src_rect blit.dst_rect
      (blitFilter mask)], true)

end OpenGL

namespace OpenGLShared

/-- `TextureRuntime::ClearTexture` of the shared OpenGL runtime
(rasterizer_cache/texture_runtime.cpp lines 77-135): scissor restricted to
the clear rectangle, returns `true`; invalid surface types hit
`UNREACHABLE_MSG` (`none`). -/
def ClearTexture (texture : Nat) (surface_type : VideoCore.SurfaceType)
    (rect : VideoCore.Rect2D) (value : Nat) : Option (List Event × Bool) :=
  match surface_type with
  | .Color | .Texture | .Fill | .Depth | .DepthStencil =>
    some ([Event.renderpassClear texture rect value], true)
  | .Invalid => none

/-- `TextureRuntime::CopyTextures` of the shared OpenGL runtime
(rasterizer_cache/texture_runtime.cpp lines 137-139): returns `true`
without performing any copy. -/
def CopyTextures (source dest : Nat) (copy : VideoCore.TextureCopy) :
    List Event × Bool :=
  ([], true)

/-- `TextureRuntime::BlitTextures` of the shared OpenGL runtime
(rasterizer_cache/texture_runtime.cpp lines 141-192): framebuffer blit with
linear filtering exactly for color-masked surfaces; invalid surface types
hit `UNREACHABLE_MSG` (`none`). -/
def BlitTextures (source dest : Nat) (surface_type : VideoCore.SurfaceType)
    (src_rect dst_rect : VideoCore.Rect2D) : Option (List Event × Bool) :=
  match OpenGL.MakeBufferMask surface_type with
  | none => none
  | some mask =>
    some ([Event.blitImage source dest src_rect dst_rect (OpenGL.blitFilter mask)], true)

end OpenGLShared

/-!
## Theorems

First some helper lemmas about the recycler association list, then one
theorem per claim (with a witness when the theorem carries hypotheses).
-/

namespace Vulkan

theorem findRecycled_eq_none_iff (l : List (HostTextureTag × ImageAlloc))
    (key : HostTextureTag) :
    findRecycled l key = none ↔ ∀ a : ImageAlloc, (key, a) ∉ l := by
  induction l with
  | nil => simp [findRecycled]
  | cons p rest ih =>
    obtain ⟨t, a⟩ := p
    by_cases ht : t = key
    · subst ht
      simp only [findRecycled, if_pos rfl]
      constructor
      · intro hc
        cases hc
      · intro hall
        exact absurd (List.mem_cons_self _ _) (hall a)
    · constructor
      · intro hnone a2 hmem
        rw [findRecycled, if_neg ht] at hnone
        rcases List.mem_cons.mp hmem with heq | hmem2
        · exact ht (congrArg Prod.fst heq).symm
        · cases hfr : findRecycled rest key with
          | none => exact (ih.mp hfr) a2 hmem2
          | some pr =>
            rw [hfr] at hnone
            cases hnone
      · intro hall
        rw [findRecycled, if_neg ht]
        have : findRecycled rest key = none := by
          apply ih.mpr
          intro a2 hmem2
          exact hall a2 (List.mem_cons_of_mem _ hmem2)
        rw [this]

theorem findRecycled_mem {l : List (HostTextureTag × ImageAlloc)}
    {key : HostTextureTag} {a : ImageAlloc} {rest : List (HostTextureTag × ImageAlloc)}
    (h : findRecycled l key = some (a, rest)) : (key, a) ∈ l := by
  induction l generalizing rest with
  | nil => simp [findRecycled] at h
  | cons p tl ih =>
    obtain ⟨t, b⟩ := p
    by_cases ht : t = key
    · subst ht
      rw [findRecycled, if_pos rfl] at h
      cases h
      exact List.mem_cons_self _ _
    · rw [findRecycled, if_neg ht] at h
      cases hfr : findRecycled tl key with
      | none => rw [hfr] at h; cases h
      | some pr =>
        obtain ⟨a2, rest2⟩ := pr
        rw [hfr] at h
        cases h
        exact List.mem_cons_of_mem _ (ih hfr)

theorem findRecycled_count {l : List (HostTextureTag × ImageAlloc)}
    {key : HostTextureTag} {a : ImageAlloc} {rest : List (HostTextureTag × ImageAlloc)}
    (h : findRecycled l key = some (a, rest)) :
    countTag l key = countTag rest key + 1 := by
  induction l generalizing rest with
  | nil => simp [findRecycled] at h
  | cons p tl ih =>
    obtain ⟨t, b⟩ := p
    by_cases ht : t = key
    · subst ht
      rw [findRecycled, if_pos rfl] at h
      cases h
      simp [countTag]
    · rw [findRecycled, if_neg ht] at h
      cases hfr : findRecycled tl key with
      | none => rw [hfr] at h; cases h
      | some pr =>
        obtain ⟨a2, rest2⟩ := pr
        rw [hfr] at h
        cases h
        have := ih hfr
        simp only [countTag, List.filter] at this ⊢
        simp [ht, this]

theorem findRecycled_length {l : List (HostTextureTag × ImageAlloc)}
    {key : HostTextureTag} {a : ImageAlloc} {rest : List (HostTextureTag × ImageAlloc)}
    (h : findRecycled l key = some (a, rest)) :
    l.length = rest.length + 1 := by
  induction l generalizing rest with
  | nil => simp [findRecycled] at h
  | cons p tl ih =>
    obtain ⟨t, b⟩ := p
    by_cases ht : t = key
    · subst ht
      rw [findRecycled, if_pos rfl] at h
      cases h
      simp
    · rw [findRecycled, if_neg ht] at h
      cases hfr : findRecycled tl key with
      | none => rw [hfr] at h; cases h
      | some pr =>
        obtain ⟨a2, rest2⟩ := pr
        rw [hfr] at h
        cases h
        simp [ih hfr]

theorem countTag_append_single (l : List (HostTextureTag × ImageAlloc))
    (tag : HostTextureTag) (a : ImageAlloc) :
    countTag (l ++ [(tag, a)]) tag = countTag l tag + 1 := by
  simp [countTag, List.filter_append]

end Vulkan

/-- Claim C1: `TextureRuntime::Allocate` first computes the `HostTextureTag`
from the requested host format, pixel format, texture type, width and
height.  If the recycler holds an entry with an equal tag, that entry is
removed and its allocation returned, with no driver allocation and no
recorded GPU work; otherwise a fresh allocation is created (one driver
allocation, a fresh image handle, the requested format) and its transition
to the general layout is recorded, leaving the recycler untouched. -/
theorem spec_C1 (st : Vulkan.AllocState) (w h : Nat) (pf : VideoCore.PixelFormat)
    (ty : VideoCore.TextureType) (fmt : Vulkan.Format)
    (hpf : pf ≠ VideoCore.PixelFormat.Invalid) :
    (∀ a : Vulkan.ImageAlloc,
      (({ format := fmt, pixel_format := pf, type := ty, width := w, height := h } :
          Vulkan.HostTextureTag), a) ∈ st.texture_recycler →
      ∃ st2 alloc,
        Vulkan.Allocate st w h pf ty fmt = some (st2, alloc, []) ∧
        (({ format := fmt, pixel_format := pf, type := ty, width := w, height := h } :
            Vulkan.HostTextureTag), alloc) ∈ st.texture_recycler ∧
        st2.driver_allocs = st.driver_allocs ∧
        st2.next_handle = st.next_handle ∧
        Vulkan.countTag st.texture_recycler
            { format := fmt, pixel_format := pf, type := ty, width := w, height := h } =
          Vulkan.countTag st2.texture_recycler
            { format := fmt, pixel_format := pf, type := ty, width := w, height := h } + 1 ∧
        st.texture_recycler.length = st2.texture_recycler.length + 1) ∧
    ((∀ a : Vulkan.ImageAlloc,
      (({ format := fmt, pixel_format := pf, type := ty, width := w, height := h } :
          Vulkan.HostTextureTag), a) ∉ st.texture_recycler) →
      ∃ st2 alloc,
        Vulkan.Allocate st w h pf ty fmt =
          some (st2, alloc, [Event.initLayoutGeneral alloc.image]) ∧
        st2.driver_allocs = st.driver_allocs + 1 ∧
        st2.texture_recycler = st.texture_recycler ∧
        alloc.image = st.next_handle ∧
        alloc.format = fmt) := by
  set key : Vulkan.HostTextureTag :=
    { format := fmt, pixel_format := pf, type := ty, width := w, height := h } with hkey
  constructor
  · intro a hmem
    cases hfr : Vulkan.findRecycled st.texture_recycler key with
    | none =>
      exact absurd hmem ((Vulkan.findRecycled_eq_none_iff _ _).mp hfr a)
    | some pr =>
      obtain ⟨alloc, rest⟩ := pr
      refine ⟨{ st with texture_recycler := rest }, alloc, ?_, ?_, rfl, rfl, ?_, ?_⟩
      · rw [Vulkan.Allocate, if_neg hpf]
        simp only [← hkey, hfr]
      · exact Vulkan.findRecycled_mem hfr
      · exact Vulkan.findRecycled_count hfr
      · exact Vulkan.findRecycled_length hfr
  · intro hnone
    have hfr : Vulkan.findRecycled st.texture_recycler key = none :=
      (Vulkan.findRecycled_eq_none_iff _ _).mpr hnone
    refine ⟨(Vulkan.freshAlloc st w h pf ty fmt).1, (Vulkan.freshAlloc st w h pf ty fmt).2.1,
      ?_, rfl, rfl, rfl, rfl⟩
    rw [Vulkan.Allocate, if_neg hpf]
    simp only [← hkey, hfr]
    rfl

/-- Witness for C1: with an empty recycler, allocation is fresh. -/
theorem spec_C1_witness :
    ∃ st2 alloc,
      Vulkan.Allocate ⟨[], 0, 0⟩ 8 8 VideoCore.PixelFormat.RGBA8
          VideoCore.TextureType.Texture2D Vulkan.Format.eR8G8B8A8Unorm =
        some (st2, alloc, [Event.initLayoutGeneral alloc.image]) ∧
      st2.driver_allocs = 1 := by
  obtain ⟨-, hmiss⟩ :=
    spec_C1 ⟨[], 0, 0⟩ 8 8 VideoCore.PixelFormat.RGBA8 VideoCore.TextureType.Texture2D
      Vulkan.Format.eR8G8B8A8Unorm (by decide)
  obtain ⟨st2, alloc, heq, hcount, -, -, -⟩ := hmiss (by intro a hmem; cases hmem)
  exact ⟨st2, alloc, heq, by rw [hcount]⟩

/-- Claim C2: destroying a `Surface` whose pixel format is not `Invalid`
appends its allocation to the recycler under the tag built from the
allocation's host format, the pixel format, the texture type and the
scaled width/height; the allocation is not destroyed (it is present in the
recycler, and no driver state changes), and the count of entries under
that tag grows by one, so several allocations may share a tag. -/
theorem spec_C2 (st : Vulkan.AllocState) (s : Vulkan.Surface)
    (hpf : s.params.pixel_format ≠ VideoCore.PixelFormat.Invalid) :
    (Vulkan.surfaceDtor st s).texture_recycler =
      st.texture_recycler ++
        [(({ format := s.alloc.format, pixel_format := s.params.pixel_format,
             type := s.params.texture_type, width := s.params.GetScaledWidth,
             height := s.params.GetScaledHeight } : Vulkan.HostTextureTag), s.alloc)] ∧
    (({ format := s.alloc.format, pixel_format := s.params.pixel_format,
        type := s.params.texture_type, width := s.params.GetScaledWidth,
        height := s.params.GetScaledHeight } : Vulkan.HostTextureTag), s.alloc) ∈
      (Vulkan.surfaceDtor st s).texture_recycler ∧
    Vulkan.countTag (Vulkan.surfaceDtor st s).texture_recycler
        { format := s.alloc.format, pixel_format := s.params.pixel_format,
          type := s.params.texture_type, width := s.params.GetScaledWidth,
          height := s.params.GetScaledHeight } =
      Vulkan.countTag st.texture_recycler
        { format := s.alloc.format, pixel_format := s.params.pixel_format,
          type := s.params.texture_type, width := s.params.GetScaledWidth,
          height := s.params.GetScaledHeight } + 1 ∧
    (Vulkan.surfaceDtor st s).driver_allocs = st.driver_allocs ∧
    (Vulkan.surfaceDtor st s).next_handle = st.next_handle := by
  have hdtor : Vulkan.surfaceDtor st s =
      Vulkan.Recycle st
        { format := s.alloc.format, pixel_format := s.params.pixel_format,
          type := s.params.texture_type, width := s.params.GetScaledWidth,
          height := s.params.GetScaledHeight } s.alloc := by
    rw [Vulkan.surfaceDtor, if_neg hpf]
  refine ⟨?_, ?_, ?_, ?_, ?_⟩
  · rw [hdtor]; rfl
  · rw [hdtor]
    exact List.mem_append_right _ (List.mem_singleton.mpr rfl)
  · rw [hdtor]
    exact Vulkan.countTag_append_single _ _ _
  · rw [hdtor]
    rfl
  · rw [hdtor]
    rfl

/-- Witness for C2: a concrete RGBA8 surface is recycled on destruction. -/
theorem spec_C2_witness :
    (Vulkan.surfaceDtor ⟨[], 0, 0⟩
        ⟨{ width := 4, height := 4, stride := 4, levels := 1, res_scale := 1,
           pixel_format := VideoCore.PixelFormat.RGBA8,
           texture_type := VideoCore.TextureType.Texture2D,
           type := VideoCore.SurfaceType.Color },
         { image := 9, image_view := 10, base_view := none, depth_view := none,
           stencil_view := none, storage_view := none, allocation := 11,
           format := Vulkan.Format.eR8G8B8A8Unorm,
           aspect := Vulkan.Aspect.color }⟩).texture_recycler =
      [(({ format := Vulkan.Format.eR8G8B8A8Unorm,
           pixel_format := VideoCore.PixelFormat.RGBA8,
           type := VideoCore.TextureType.Texture2D, width := 4, height := 4 } :
            Vulkan.HostTextureTag),
        { image := 9, image_view := 10, base_view := none, depth_view := none,
          stencil_view := none, storage_view := none, allocation := 11,
          format := Vulkan.Format.eR8G8B8A8Unorm,
          aspect := Vulkan.Aspect.color })] := by
  have h := spec_C2 ⟨[], 0, 0⟩
    ⟨{ width := 4, height := 4, stride := 4, levels := 1, res_scale := 1,
       pixel_format := VideoCore.PixelFormat.RGBA8,
       texture_type := VideoCore.TextureType.Texture2D,
       type := VideoCore.SurfaceType.Color },
     { image := 9, image_view := 10, base_view := none, depth_view := none,
       stencil_view := none, storage_view := none, allocation := 11,
       format := Vulkan.Format.eR8G8B8A8Unorm,
       aspect := Vulkan.Aspect.color }⟩ (by decide)
  exact h.1

/-- Claim C6: when the clear rectangle is a strict sub-region of the
surface's scaled extent, `ClearTexture` records a render-pass clear whose
render area is exactly the clear rectangle (and still returns `true`), and
under the pixel semantics of a render-pass clear every pixel strictly
outside that rectangle is left unchanged. -/
theorem spec_C6 (st : Vulkan.AllocState) (s : Vulkan.Surface)
    (clear : VideoCore.TextureClear) (value : Nat)
    (hsub : clear.texture_rect.subRect s.params.GetScaledRect)
    (hne : clear.texture_rect ≠ s.params.GetScaledRect) :
    Vulkan.ClearTexture st s clear value =
      some (st, [Event.renderpassClear s.alloc.image clear.texture_rect value], true) ∧
    ∀ (g : Nat → Nat → Nat) (x y : Nat), ¬ clear.texture_rect.containsPix x y →
      Vulkan.clearEffect s.alloc.image g
        (Event.renderpassClear s.alloc.image clear.texture_rect value) x y = g x y := by
  constructor
  · rw [Vulkan.ClearTexture, if_neg hne]
  · intro g x y hout
    rw [Vulkan.clearEffect, if_pos rfl, if_neg hout]

/-- Witness for C6: clearing the lower-left 2x2 quarter of a 4x4 surface. -/
theorem spec_C6_witness :
    Vulkan.ClearTexture ⟨[], 0, 0⟩
        ⟨{ width := 4, height := 4, stride := 4, levels := 1, res_scale := 1,
           pixel_format := VideoCore.PixelFormat.RGBA8,
           texture_type := VideoCore.TextureType.Texture2D,
           type := VideoCore.SurfaceType.Color },
         { image := 1, image_view := 2, base_view := none, depth_view := none,
           stencil_view := none, storage_view := none, allocation := 3,
           format := Vulkan.Format.eR8G8B8A8Unorm, aspect := Vulkan.Aspect.color }⟩
        { texture_level := 0, texture_rect := ⟨0, 2, 2, 0⟩ } 7 =
      some (⟨[], 0, 0⟩, [Event.renderpassClear 1 ⟨0, 2, 2, 0⟩ 7], true) :=
  (spec_C6 ⟨[], 0, 0⟩
    ⟨{ width := 4, height := 4, stride := 4, levels := 1, res_scale := 1,
       pixel_format := VideoCore.PixelFormat.RGBA8,
       texture_type := VideoCore.TextureType.Texture2D,
       type := VideoCore.SurfaceType.Color },
     { image := 1, image_view := 2, base_view := none, depth_view := none,
       stencil_view := none, storage_view := none, allocation := 3,
       format := Vulkan.Format.eR8G8B8A8Unorm, aspect := Vulkan.Aspect.color }⟩
    { texture_level := 0, texture_rect := ⟨0, 2, 2, 0⟩ } 7
    (by decide) (by decide)).1

/-- Claim C7: the blit sampling filter is nearest exactly for
depth-classified surfaces.  In the Vulkan backend `MakeFilter` returns
nearest iff the pixel format classifies as `Depth` or `DepthStencil`
(equivalently, iff it is one of `D16`, `D24`, `D24S8`), and linear in all
other cases; in the OpenGL backends the filter computed from the buffer
mask is nearest iff the surface type is `Depth` or `DepthStencil`. -/
theorem spec_C7 :
    (∀ pf : VideoCore.PixelFormat,
      Vulkan.MakeFilter pf = Vulkan.Filter.eNearest ↔
        (VideoCore.GetFormatType pf = VideoCore.SurfaceType.Depth ∨
         VideoCore.GetFormatType pf = VideoCore.SurfaceType.DepthStencil)) ∧
    (∀ pf : VideoCore.PixelFormat,
      Vulkan.MakeFilter pf = Vulkan.Filter.eNearest ↔
        (pf = VideoCore.PixelFormat.D16 ∨ pf = VideoCore.PixelFormat.D24 ∨
         pf = VideoCore.PixelFormat.D24S8)) ∧
    (∀ pf : VideoCore.PixelFormat,
      Vulkan.MakeFilter pf = Vulkan.Filter.eLinear ↔
        ¬ (VideoCore.GetFormatType pf = VideoCore.SurfaceType.Depth ∨
           VideoCore.GetFormatType pf = VideoCore.SurfaceType.DepthStencil)) ∧
    (∀ (ty : VideoCore.SurfaceType) (mask : OpenGL.BufferMask),
      OpenGL.MakeBufferMask ty = some mask →
        (OpenGL.blitFilter mask = Vulkan.Filter.eNearest ↔
          (ty = VideoCore.SurfaceType.Depth ∨ ty = VideoCore.SurfaceType.DepthStencil))) := by
  refine ⟨?_, ?_, ?_, ?_⟩
  · intro pf
    cases pf <;> simp [Vulkan.MakeFilter, VideoCore.GetFormatType]
  · intro pf
    cases pf <;> simp [Vulkan.MakeFilter]
  · intro pf
    cases pf <;> simp [Vulkan.MakeFilter, VideoCore.GetFormatType]
  · intro ty mask hmask
    cases ty <;> cases mask <;> simp_all [OpenGL.MakeBufferMask, OpenGL.blitFilter]

/-- Witness for C7: the depth surface type yields nearest filtering in the
OpenGL path. -/
theorem spec_C7_witness :
    OpenGL.MakeBufferMask VideoCore.SurfaceType.Depth = some OpenGL.BufferMask.depth ∧
    (OpenGL.blitFilter OpenGL.BufferMask.depth = Vulkan.Filter.eNearest ↔
      (VideoCore.SurfaceType.Depth = VideoCore.SurfaceType.Depth ∨
       VideoCore.SurfaceType.Depth = VideoCore.SurfaceType.DepthStencil)) :=
  ⟨rfl, spec_C7.2.2.2 VideoCore.SurfaceType.Depth OpenGL.BufferMask.depth rfl⟩

/-- Claim C8: the revised `HostTextureTag` consists of the native host
format, the logical pixel format, the texture dimensionality, width,
height and mip level count, and two tags are equal iff every one of these
fields compares equal. -/
theorem spec_C8 (t1 t2 : Vulkan2.HostTextureTag) :
    t1 = t2 ↔
      (t1.format = t2.format ∧ t1.pixel_format = t2.pixel_format ∧
       t1.type = t2.type ∧ t1.width = t2.width ∧ t1.height = t2.height ∧
       t1.levels = t2.levels) := by
  cases t1
  cases t2
  simp [Vulkan2.HostTextureTag.mk.injEq, and_assoc]

/-- Claim C9: `UnpackDepthStencil` on any destination host format other
than `eD24UnormS8Uint` hits the `UNREACHABLE()` default branch: it fails
with the unimplemented-conversion error and never returns unpacked data. -/
theorem spec_C9 (m : Vulkan.Mem) (size : Nat) (dest : Vulkan.Format)
    (hdest : dest ≠ Vulkan.Format.eD24UnormS8Uint) :
    Vulkan.UnpackDepthStencil m size dest =
      Except.error Vulkan.UnpackError.unimplementedConversion := by
  cases dest <;> first
    | rfl
    | exact absurd rfl hdest

/-- Witness for C9: unpacking towards `eD16Unorm` fails loudly. -/
theorem spec_C9_witness :
    Vulkan.UnpackDepthStencil (fun _ => 0) 10 Vulkan.Format.eD16Unorm =
      Except.error Vulkan.UnpackError.unimplementedConversion :=
  spec_C9 (fun _ => 0) 10 Vulkan.Format.eD16Unorm (by decide)

/-- Claim C10: across all three backends, the boolean results of
`ClearTexture`, `CopyTextures` and `BlitTextures` are always `true`
whenever the call returns (the aborting `UNREACHABLE` branches never
return a value), and the shared OpenGL runtime's `CopyTextures` returns
`true` while recording no work at all. -/
theorem spec_C10 :
    (∀ st s clear value r, Vulkan.ClearTexture st s clear value = some r → r.2.2 = true) ∧
    (∀ st source dest copy r, Vulkan.CopyTextures st source dest copy = some r →
      r.2.2 = true) ∧
    (∀ st source dest blit r, Vulkan.BlitTextures st source dest blit = some r →
      r.2.2 = true) ∧
    (∀ s clear value r, OpenGL.ClearTexture s clear value = some r → r.2 = true) ∧
    (∀ source dest copy, (OpenGL.CopyTextures source dest copy).2 = true) ∧
    (∀ source dest blit r, OpenGL.BlitTextures source dest blit = some r → r.2 = true) ∧
    (∀ t ty rect value r, OpenGLShared.ClearTexture t ty rect value = some r →
      r.2 = true) ∧
    (∀ source dest copy, OpenGLShared.CopyTextures source dest copy =
      (([] : List Event), true)) ∧
    (∀ source dest ty sr dr r, OpenGLShared.BlitTextures source dest ty sr dr = some r →
      r.2 = true) := by
  refine ⟨?_, ?_, ?_, ?_, ?_, ?_, ?_, ?_, ?_⟩
  · intro st s clear value r h
    rw [Vulkan.ClearTexture] at h
    split at h
    · cases hma : Vulkan.MakeAspect s.params.type with
      | none => rw [hma] at h; cases h
      | some a => rw [hma] at h; cases h; rfl
    · cases h; rfl
  · intro st source dest copy r h
    rw [Vulkan.CopyTextures] at h
    cases hma : Vulkan.MakeAspect source.params.type with
    | none => rw [hma] at h; cases h
    | some a => rw [hma] at h; cases h; rfl
  · intro st source dest blit r h
    rw [Vulkan.BlitTextures] at h
    cases hma : Vulkan.MakeAspect source.params.type with
    | none => rw [hma] at h; cases h
    | some a => rw [hma] at h; cases h; rfl
  · intro s clear value r h
    rw [OpenGL.ClearTexture] at h
    split at h <;> first
      | (cases h; rfl)
      | cases h
  · intro source dest copy
    rfl
  · intro source dest blit r h
    rw [OpenGL.BlitTextures] at h
    cases hma : OpenGL.MakeBufferMask source.params.type with
    | none => rw [hma] at h; cases h
    | some a => rw [hma] at h; cases h; rfl
  · intro t ty rect value r h
    rw [OpenGLShared.ClearTexture.eq_def] at h
    split at h <;> first
      | (cases h; rfl)
      | cases h
  · intro source dest copy
    rfl
  · intro source dest ty sr dr r h
    rw [OpenGLShared.BlitTextures] at h
    cases hma : OpenGL.MakeBufferMask ty with
    | none => rw [hma] at h; cases h
    | some a => rw [hma] at h; cases h; rfl

/-- Witness for C10: a concrete full-extent Vulkan clear returns `true`. -/
theorem spec_C10_witness :
    ∃ r, Vulkan.ClearTexture ⟨[], 0, 0⟩
        ⟨{ width := 4, height := 4, stride := 4, levels := 1, res_scale := 1,
           pixel_format := VideoCore.PixelFormat.RGBA8,
           texture_type := VideoCore.TextureType.Texture2D,
           type := VideoCore.SurfaceType.Color },
         { image := 1, image_view := 2, base_view := none, depth_view := none,
           stencil_view := none, storage_view := none, allocation := 3,
           format := Vulkan.Format.eR8G8B8A8Unorm, aspect := Vulkan.Aspect.color }⟩
        { texture_level := 0, texture_rect := ⟨0, 4, 4, 0⟩ } 7 = some r ∧
      r.2.2 = true := by
  have h : Vulkan.ClearTexture ⟨[], 0, 0⟩
      ⟨{ width := 4, height := 4, stride := 4, levels := 1, res_scale := 1,
         pixel_format := VideoCore.PixelFormat.RGBA8,
         texture_type := VideoCore.TextureType.Texture2D,
         type := VideoCore.SurfaceType.Color },
       { image := 1, image_view := 2, base_view := none, depth_view := none,
         stencil_view := none, storage_view := none, allocation := 3,
         format := Vulkan.Format.eR8G8B8A8Unorm, aspect := Vulkan.Aspect.color }⟩
      { texture_level := 0, texture_rect := ⟨0, 4, 4, 0⟩ } 7 =
      some (⟨[], 0, 0⟩, [Event.clearImage 1 0 7], true) := by rfl
  exact ⟨_, h, spec_C10.1 _ _ _ _ _ h⟩

namespace Vulkan

theorem writeByte_same (m : Mem) (a v : Nat) : writeByte m a v a = v := by
  simp [writeByte]

theorem writeByte_other (m : Mem) (a v x : Nat) (h : x ≠ a) : writeByte m a v x = m x := by
  simp [writeByte, h]

theorem writeWord_out (m : Mem) (a v x : Nat) (h : x < a ∨ a + 4 ≤ x) :
    writeWord m a v x = m x := by
  unfold writeWord
  rw [writeByte_other _ _ _ _ (by omega), writeByte_other _ _ _ _ (by omega),
    writeByte_other _ _ _ _ (by omega), writeByte_other _ _ _ _ (by omega)]

theorem writeWord_at0 (m : Mem) (a v : Nat) : writeWord m a v a = v % 256 := by
  unfold writeWord
  rw [writeByte_other _ _ _ _ (by omega), writeByte_other _ _ _ _ (by omega),
    writeByte_other _ _ _ _ (by omega), writeByte_same]

theorem writeWord_at1 (m : Mem) (a v : Nat) : writeWord m a v (a + 1) = v / 256 % 256 := by
  unfold writeWord
  rw [writeByte_other _ _ _ _ (by omega), writeByte_other _ _ _ _ (by omega),
    writeByte_same]

theorem writeWord_at2 (m : Mem) (a v : Nat) : writeWord m a v (a + 2) = v / 65536 % 256 := by
  unfold writeWord
  rw [writeByte_other _ _ _ _ (by omega), writeByte_same]

theorem writeWord_at3 (m : Mem) (a v : Nat) :
    writeWord m a v (a + 3) = v / 16777216 % 256 := by
  unfold writeWord
  rw [writeByte_same]

theorem readWord_lt (m : Mem) (a : Nat) : readWord m a < 4294967296 := by
  unfold readWord readByte
  have h0 : m a % 256 < 256 := Nat.mod_lt _ (by decide)
  have h1 : m (a + 1) % 256 < 256 := Nat.mod_lt _ (by decide)
  have h2 : m (a + 2) % 256 < 256 := Nat.mod_lt _ (by decide)
  have h3 : m (a + 3) % 256 < 256 := Nat.mod_lt _ (by decide)
  omega

theorem readWord_writeWord_self (m : Mem) (a v : Nat) (hv : v < 4294967296) :
    readWord (writeWord m a v) a = v := by
  unfold readWord readByte
  rw [writeWord_at0, writeWord_at1, writeWord_at2, writeWord_at3]
  omega

theorem readWord_congr {m1 m2 : Mem} {a : Nat} (h0 : m1 a = m2 a)
    (h1 : m1 (a + 1) = m2 (a + 1)) (h2 : m1 (a + 2) = m2 (a + 2))
    (h3 : m1 (a + 3) = m2 (a + 3)) : readWord m1 a = readWord m2 a := by
  unfold readWord readByte
  rw [h0, h1, h2, h3]

theorem unpackStep_out (m : Mem) (dOff sOff x : Nat) (hx : x ≠ sOff)
    (hx2 : x < dOff ∨ dOff + 4 ≤ x) : unpackD24S8Step m dOff sOff x = m x := by
  unfold unpackD24S8Step
  rw [writeWord_out _ _ _ _ hx2, writeByte_other _ _ _ _ hx]

theorem unpackStep_word (m : Mem) (dOff sOff : Nat) :
    readWord (unpackD24S8Step m dOff sOff) dOff = readWord m dOff / 256 := by
  unfold unpackD24S8Step
  exact readWord_writeWord_self _ _ _ (by
    have := readWord_lt m dOff
    omega)

theorem unpackStep_stencil (m : Mem) (dOff sOff : Nat) (h : dOff + 4 ≤ sOff) :
    unpackD24S8Step m dOff sOff sOff = readWord m dOff % 256 := by
  unfold unpackD24S8Step
  rw [writeWord_out _ _ _ _ (Or.inr h), writeByte_same]

theorem unpackLoop_spec (n : Nat) :
    ∀ (m : Mem) (dOff sOff : Nat), dOff + 4 * n ≤ sOff →
      (∀ x, (x < dOff ∨ (dOff + 4 * n ≤ x ∧ x < sOff) ∨ sOff + n ≤ x) →
        unpackD24S8Loop n m dOff sOff x = m x) ∧
      (∀ i, i < n →
        readWord (unpackD24S8Loop n m dOff sOff) (dOff + 4 * i) =
          readWord m (dOff + 4 * i) / 256) ∧
      (∀ i, i < n →
        unpackD24S8Loop n m dOff sOff (sOff + i) = readWord m (dOff + 4 * i) % 256) := by
  induction n with
  | zero =>
    intro m dOff sOff _
    refine ⟨fun x _ => rfl, fun i hi => absurd hi (by omega), fun i hi => absurd hi (by omega)⟩
  | succ n ih =>
    intro m dOff sOff h
    have h4 : dOff + 4 ≤ sOff := by omega
    obtain ⟨hfr, hwd, hst⟩ := ih (unpackD24S8Step m dOff sOff) (dOff + 4) (sOff + 1) (by omega)
    have hloop : unpackD24S8Loop (n + 1) m dOff sOff =
        unpackD24S8Loop n (unpackD24S8Step m dOff sOff) (dOff + 4) (sOff + 1) := rfl
    refine ⟨?_, ?_, ?_⟩
    · intro x hx
      rw [hloop, hfr x (by omega)]
      exact unpackStep_out m dOff sOff x (by omega) (by omega)
    · intro i hi
      rw [hloop]
      cases i with
      | zero =>
        simp only [Nat.mul_zero, Nat.add_zero]
        have hcong : readWord (unpackD24S8Loop n (unpackD24S8Step m dOff sOff)
            (dOff + 4) (sOff + 1)) dOff = readWord (unpackD24S8Step m dOff sOff) dOff :=
          readWord_congr (hfr dOff (by omega)) (hfr (dOff + 1) (by omega))
            (hfr (dOff + 2) (by omega)) (hfr (dOff + 3) (by omega))
        rw [hcong, unpackStep_word]
      | succ i =>
        have haddr : dOff + 4 * (i + 1) = (dOff + 4) + 4 * i := by omega
        rw [haddr, hwd i (by omega)]
        have hcong : readWord (unpackD24S8Step m dOff sOff) ((dOff + 4) + 4 * i) =
            readWord m ((dOff + 4) + 4 * i) :=
          readWord_congr
            (unpackStep_out m dOff sOff _ (by omega) (by omega))
            (unpackStep_out m dOff sOff _ (by omega) (by omega))
            (unpackStep_out m dOff sOff _ (by omega) (by omega))
            (unpackStep_out m dOff sOff _ (by omega) (by omega))
        rw [hcong]
    · intro i hi
      rw [hloop]
      cases i with
      | zero =>
        simp only [Nat.mul_zero, Nat.add_zero]
        rw [hfr sOff (by omega)]
        exact unpackStep_stencil m dOff sOff h4
      | succ i =>
        have haddr : sOff + (i + 1) = (sOff + 1) + i := by omega
        rw [haddr, hst i (by omega)]
        have hcong : readWord (unpackD24S8Step m dOff sOff) ((dOff + 4) + 4 * i) =
            readWord m ((dOff + 4) + 4 * i) :=
          readWord_congr
            (unpackStep_out m dOff sOff _ (by omega) (by omega))
            (unpackStep_out m dOff sOff _ (by omega) (by omega))
            (unpackStep_out m dOff sOff _ (by omega) (by omega))
            (unpackStep_out m dOff sOff _ (by omega) (by omega))
        rw [hcong]
        have haddr2 : (dOff + 4) + 4 * i = dOff + 4 * (i + 1) := by omega
        rw [haddr2]

end Vulkan

/-- Claim C3: unpacking a staging buffer holding `N` interleaved D24S8
texels (the 5-bytes-per-texel staging convention gives `size = 5 * N`)
succeeds with returned depth offset `4 * N = 4 * size / 5`, and afterwards
the 32-bit word at offset `4 * i` holds the original word shifted right by
8, the stencil byte at offset `4 * N + i` (the plane starting at
`4 * size / 5`) holds the original word's low byte for each texel in
order, the two planes lie in disjoint byte ranges of the same buffer, and
no byte outside the buffer changes. -/
theorem spec_C3 (N : Nat) (m : Vulkan.Mem) :
    ∃ m2, Vulkan.UnpackDepthStencil m (5 * N) Vulkan.Format.eD24UnormS8Uint =
        Except.ok (m2, 4 * N) ∧
      (∀ i, i < N → Vulkan.readWord m2 (4 * i) = Vulkan.readWord m (4 * i) / 256) ∧
      (∀ i, i < N → Vulkan.readByte m2 (4 * N + i) = Vulkan.readWord m (4 * i) % 256) ∧
      (∀ x, 5 * N ≤ x → m2 x = m x) ∧
      (∀ i, i < N → 4 * i + 4 ≤ 4 * N ∧ 4 * N ≤ 4 * N + i ∧ 4 * N + i < 5 * N) := by
  have hs : 4 * (5 * N) / 5 = 4 * N := by omega
  have hn : 5 * N - 4 * (5 * N) / 5 = N := by omega
  obtain ⟨hfr, hwd, hst⟩ := Vulkan.unpackLoop_spec N m 0 (4 * N) (by omega)
  refine ⟨Vulkan.unpackD24S8Loop N m 0 (4 * N), ?_, ?_, ?_, ?_, ?_⟩
  · simp only [Vulkan.UnpackDepthStencil, hs]
    have hn2 : 5 * N - 4 * N = N := by omega
    rw [hn2, if_pos rfl]
  · intro i hi
    have := hwd i hi
    simpa using this
  · intro i hi
    have h2 := hst i hi
    simp only [Nat.zero_add] at h2
    unfold Vulkan.readByte
    rw [h2]
    omega
  · intro x hx
    exact hfr x (by omega)
  · intro i hi
    omega

/-- Witness for C3: one texel, a concrete memory. -/
theorem spec_C3_witness :
    ∃ m2, Vulkan.UnpackDepthStencil (fun a => a + 1) 5 Vulkan.Format.eD24UnormS8Uint =
        Except.ok (m2, 4) ∧
      Vulkan.readWord m2 0 = Vulkan.readWord (fun a => a + 1) 0 / 256 := by
  obtain ⟨m2, hok, hwd, -, -, -⟩ := spec_C3 1 (fun a => a + 1)
  refine ⟨m2, ?_, ?_⟩
  · simpa using hok
  · simpa using hwd 0 (by decide)

namespace Vulkan

theorem MakeAspect_isSome (ty : VideoCore.SurfaceType) (h : ty ≠ VideoCore.SurfaceType.Invalid) :
    ∃ a, MakeAspect ty = some a := by
  cases ty <;> first
    | exact absurd rfl h
    | exact ⟨_, rfl⟩

theorem MakeAspect_GetFormatType_isSome (pf : VideoCore.PixelFormat)
    (h : pf ≠ VideoCore.PixelFormat.Invalid) :
    ∃ a, MakeAspect (VideoCore.GetFormatType pf) = some a := by
  cases pf <;> first
    | exact absurd rfl h
    | exact ⟨_, rfl⟩

theorem Allocate_spec (st : AllocState) (w h : Nat) (pf : VideoCore.PixelFormat)
    (ty : VideoCore.TextureType) (fmt : Format)
    (hpf : pf ≠ VideoCore.PixelFormat.Invalid) :
    ∃ st1 alloc evs, Allocate st w h pf ty fmt = some (st1, alloc, evs) ∧
      evs.filter Event.isTransfer = [] ∧
      evs.filter Event.isConstruct = [] ∧
      ((∃ t : HostTextureTag, t.format = fmt ∧ (t, alloc) ∈ st.texture_recycler) ∨
        (alloc.image = st.next_handle ∧ alloc.format = fmt)) := by
  cases hfr : findRecycled st.texture_recycler
      { format := fmt, pixel_format := pf, type := ty, width := w, height := h } with
  | none =>
    refine ⟨(freshAlloc st w h pf ty fmt).1, (freshAlloc st w h pf ty fmt).2.1,
      (freshAlloc st w h pf ty fmt).2.2, ?_, rfl, rfl, Or.inr ⟨rfl, rfl⟩⟩
    rw [Allocate, if_neg hpf]
    simp only [hfr]
  | some pr =>
    obtain ⟨alloc, rest⟩ := pr
    refine ⟨{ st with texture_recycler := rest }, alloc, [], ?_, rfl, rfl,
      Or.inl ⟨{ format := fmt, pixel_format := pf, type := ty, width := w, height := h },
        rfl, findRecycled_mem hfr⟩⟩
    rw [Allocate, if_neg hpf]
    simp only [hfr]

theorem AllocateWithTraits_eq_allocate (inst : Instance) (st : AllocState) (w h : Nat)
    (pf : VideoCore.PixelFormat) (ty : VideoCore.TextureType) (a : Aspect)
    (ha : MakeAspect (VideoCore.GetFormatType pf) = some a) :
    ∃ fmt, AllocateWithTraits inst st w h pf ty = Allocate st w h pf ty fmt := by
  unfold AllocateWithTraits
  rw [ha]
  exact ⟨_, rfl⟩

theorem mkSurface_spec (inst : Instance) (st : AllocState) (params : VideoCore.SurfaceParams)
    (hpf : params.pixel_format ≠ VideoCore.PixelFormat.Invalid) :
    ∃ st1 alloc evs,
      mkSurface inst st params = some (st1, ⟨params, alloc⟩, evs) ∧
      evs.filter Event.isTransfer = [] ∧
      evs.filter Event.isConstruct =
        [Event.constructSurface params alloc.format alloc.image] := by
  obtain ⟨a, ha⟩ := MakeAspect_GetFormatType_isSome params.pixel_format hpf
  obtain ⟨fmt, hAT⟩ := AllocateWithTraits_eq_allocate inst st params.GetScaledWidth
    params.GetScaledHeight params.pixel_format params.texture_type a ha
  obtain ⟨st1, alloc, evs, hA, hTa, hCa, -⟩ := Allocate_spec st params.GetScaledWidth
    params.GetScaledHeight params.pixel_format params.texture_type fmt hpf
  refine ⟨st1, alloc, evs ++ [Event.constructSurface params alloc.format alloc.image],
    ?_, ?_, ?_⟩
  · unfold mkSurface
    rw [if_neg hpf, hAT, hA]
  · rw [List.filter_append, hTa]
    rfl
  · rw [List.filter_append, hCa]
    rfl

theorem mkSurfaceWithFormat_spec (st : AllocState) (params : VideoCore.SurfaceParams)
    (fmt : Format) (hpf : params.pixel_format ≠ VideoCore.PixelFormat.Invalid)
    (hfmt : fmt ≠ Format.eUndefined)
    (hwf : ∀ p ∈ st.texture_recycler, (p : HostTextureTag × ImageAlloc).2.format = p.1.format) :
    ∃ st1 alloc evs,
      mkSurfaceWithFormat st params fmt = some (st1, ⟨params, alloc⟩, evs) ∧
      alloc.format = fmt ∧
      evs.filter Event.isTransfer = [] ∧
      evs.filter Event.isConstruct = [Event.constructSurface params fmt alloc.image] ∧
      ((∃ t, (t, alloc) ∈ st.texture_recycler) ∨ alloc.image = st.next_handle) := by
  obtain ⟨st1, alloc, evs, hA, hTa, hCa, hsrc⟩ := Allocate_spec st params.GetScaledWidth
    params.GetScaledHeight params.pixel_format params.texture_type fmt hpf
  have hfm : alloc.format = fmt := by
    rcases hsrc with ⟨t, ht, hmem⟩ | ⟨-, hf⟩
    · rw [hwf (t, alloc) hmem, ht]
    · exact hf
  refine ⟨st1, alloc, evs ++ [Event.constructSurface params alloc.format alloc.image],
    ?_, hfm, ?_, ?_, ?_⟩
  · unfold mkSurfaceWithFormat
    rw [if_neg hfmt, hA]
  · rw [List.filter_append, hTa]
    rfl
  · rw [List.filter_append, hCa]
    simp [hfm, Event.isConstruct]
  · rcases hsrc with ⟨t, -, hmem⟩ | ⟨hi, -⟩
    · exact Or.inl ⟨t, hmem⟩
    · exact Or.inr hi

theorem BlitTextures_eq (st : AllocState) (source dest : Surface)
    (blit : VideoCore.TextureBlit) (a : Aspect)
    (ha : MakeAspect source.params.type = some a) :
    BlitTextures st source dest blit =
      some (st, [Event.blitImage source.alloc.image dest.alloc.image blit.src_rect
        blit.dst_rect (MakeFilter source.params.pixel_format)], true) := by
  unfold BlitTextures
  rw [ha]

theorem UploadF_direct (inst : Instance) (fuel : Nat) (st : AllocState) (s : Surface)
    (up : VideoCore.BufferTextureCopy)
    (h1 : ¬(s.params.type = VideoCore.SurfaceType.DepthStencil ∧
      (inst.traits s.params.pixel_format).blit_support = false))
    (h2 : s.params.res_scale = 1) :
    UploadF inst (fuel + 1) st s up =
      some (st, [Event.copyBufferToImage s.alloc.image up.texture_rect up.texture_level
        (if s.alloc.aspect = Aspect.depthStencil then 2 else 1)]) := by
  simp only [UploadF]
  rw [if_neg h1, if_neg (show ¬(s.params.res_scale ≠ 1) from fun hc => hc h2)]

theorem DownloadF_direct (inst : Instance) (fuel : Nat) (st : AllocState) (s : Surface)
    (dl : VideoCore.BufferTextureCopy)
    (h1 : s.params.type ≠ VideoCore.SurfaceType.DepthStencil)
    (h2 : s.params.res_scale = 1) :
    DownloadF inst (fuel + 1) st s dl =
      some (st, [Event.copyImageToBuffer s.alloc.image dl.texture_rect dl.texture_level]) := by
  simp only [DownloadF]
  rw [if_neg h1, if_neg (show ¬(s.params.res_scale ≠ 1) from fun hc => hc h2)]

end Vulkan

/-- Claim C4: an `Upload` on a surface whose resolution scale is not 1
constructs an ephemeral unscaled surface whose width, stride and height
are exactly the upload rectangle's native dimensions (with `res_scale` 1),
performs the direct buffer-to-image upload into that unscaled surface, and
then blits from the unscaled surface into the destination rectangle equal
to the upload rectangle multiplied by the scale factor. -/
theorem spec_C4 (inst : Vulkan.Instance) (st : Vulkan.AllocState) (s : Vulkan.Surface)
    (up : VideoCore.BufferTextureCopy)
    (hscale : s.params.res_scale ≠ 1)
    (hpf : s.params.pixel_format ≠ VideoCore.PixelFormat.Invalid)
    (hty : s.params.type ≠ VideoCore.SurfaceType.Invalid)
    (hblit : (inst.traits s.params.pixel_format).blit_support = true ∨
      s.params.type ≠ VideoCore.SurfaceType.DepthStencil) :
    ∃ st2 evs uimg uparams vfmt n,
      Vulkan.UploadF inst 2 st s up = some (st2, evs) ∧
      uparams.width = up.texture_rect.GetWidth ∧
      uparams.stride = up.texture_rect.GetWidth ∧
      uparams.height = up.texture_rect.GetHeight ∧
      uparams.res_scale = 1 ∧
      evs.filter Event.isConstruct = [Event.constructSurface uparams vfmt uimg] ∧
      evs.filter Event.isTransfer =
        [Event.copyBufferToImage uimg
           ⟨0, up.texture_rect.GetHeight, up.texture_rect.GetWidth, 0⟩ 0 n,
         Event.blitImage uimg s.alloc.image
           ⟨0, up.texture_rect.GetHeight, up.texture_rect.GetWidth, 0⟩
           (up.texture_rect.scale s.params.res_scale)
           (Vulkan.MakeFilter s.params.pixel_format)] := by
  have hcond1 : ¬(s.params.type = VideoCore.SurfaceType.DepthStencil ∧
      (inst.traits s.params.pixel_format).blit_support = false) := by
    rintro ⟨hds, hbs⟩
    rcases hblit with hb | hb
    · rw [hb] at hbs
      cases hbs
    · exact hb hds
  obtain ⟨st1, alloc, evs1, hmk, hT1, hC1⟩ :=
    Vulkan.mkSurface_spec inst st
      { s.params with
        width := up.texture_rect.GetWidth
        stride := up.texture_rect.GetWidth
        height := up.texture_rect.GetHeight
        res_scale := 1 } hpf
  obtain ⟨a, ha⟩ := Vulkan.MakeAspect_isSome s.params.type hty
  have hinner : Vulkan.UploadF inst 1 st1
      ⟨{ s.params with
         width := up.texture_rect.GetWidth
         stride := up.texture_rect.GetWidth
         height := up.texture_rect.GetHeight
         res_scale := 1 }, alloc⟩
      { buffer_offset := up.buffer_offset, buffer_size := up.buffer_size,
        texture_rect := ⟨0, up.texture_rect.GetHeight, up.texture_rect.GetWidth, 0⟩,
        texture_level := 0 } =
      some (st1, [Event.copyBufferToImage alloc.image
        ⟨0, up.texture_rect.GetHeight, up.texture_rect.GetWidth, 0⟩ 0
        (if alloc.aspect = Vulkan.Aspect.depthStencil then 2 else 1)]) :=
    Vulkan.UploadF_direct inst 0 st1 _ _ hcond1 rfl
  have hband : Vulkan.BlitTextures st1
      ⟨{ s.params with
         width := up.texture_rect.GetWidth
         stride := up.texture_rect.GetWidth
         height := up.texture_rect.GetHeight
         res_scale := 1 }, alloc⟩ s
      { src_level := 0, dst_level := up.texture_level, src_layer := 0, dst_layer := 0,
        src_rect := ⟨0, up.texture_rect.GetHeight, up.texture_rect.GetWidth, 0⟩,
        dst_rect := up.texture_rect.scale s.params.res_scale } =
      some (st1, [Event.blitImage alloc.image s.alloc.image
        ⟨0, up.texture_rect.GetHeight, up.texture_rect.GetWidth, 0⟩
        (up.texture_rect.scale s.params.res_scale)
        (Vulkan.MakeFilter s.params.pixel_format)], true) :=
    Vulkan.BlitTextures_eq st1 _ s _ a ha
  refine ⟨st1,
    evs1 ++ [Event.copyBufferToImage alloc.image
      ⟨0, up.texture_rect.GetHeight, up.texture_rect.GetWidth, 0⟩ 0
      (if alloc.aspect = Vulkan.Aspect.depthStencil then 2 else 1)] ++
      [Event.blitImage alloc.image s.alloc.image
        ⟨0, up.texture_rect.GetHeight, up.texture_rect.GetWidth, 0⟩
        (up.texture_rect.scale s.params.res_scale)
        (Vulkan.MakeFilter s.params.pixel_format)],
    alloc.image,
    { s.params with
      width := up.texture_rect.GetWidth
      stride := up.texture_rect.GetWidth
      height := up.texture_rect.GetHeight
      res_scale := 1 },
    alloc.format,
    (if alloc.aspect = Vulkan.Aspect.depthStencil then 2 else 1),
    ?_, rfl, rfl, rfl, rfl, ?_, ?_⟩
  · rw [show (2 : Nat) = 1 + 1 from rfl, Vulkan.UploadF]
    rw [if_neg hcond1, if_pos hscale]
    simp only [hmk, hinner, hband]
  · simp only [List.filter_append, hC1]
    rfl
  · simp only [List.filter_append, hT1]
    rfl

/-- Witness for C4: a 2x-scaled RGBA8 surface upload. -/
theorem spec_C4_witness :
    ∃ st2 evs uimg uparams vfmt n,
      Vulkan.UploadF
        ⟨fun _ => { transfer_support := true, blit_support := true,
                    attachment_support := true, storage_support := true,
                    native := Vulkan.Format.eR8G8B8A8Unorm,
                    fallback := Vulkan.Format.eR8G8B8A8Unorm }⟩ 2 ⟨[], 0, 0⟩
        ⟨{ width := 4, height := 4, stride := 4, levels := 1, res_scale := 2,
           pixel_format := VideoCore.PixelFormat.RGBA8,
           texture_type := VideoCore.TextureType.Texture2D,
           type := VideoCore.SurfaceType.Color },
         { image := 90, image_view := 91, base_view := none, depth_view := none,
           stencil_view := none, storage_view := none, allocation := 92,
           format := Vulkan.Format.eR8G8B8A8Unorm, aspect := Vulkan.Aspect.color }⟩
        { buffer_offset := 0, buffer_size := 16,
          texture_rect := ⟨0, 2, 2, 0⟩, texture_level := 0 } = some (st2, evs) ∧
      uparams.width = VideoCore.Rect2D.GetWidth ⟨0, 2, 2, 0⟩ ∧
      uparams.stride = VideoCore.Rect2D.GetWidth ⟨0, 2, 2, 0⟩ ∧
      uparams.height = VideoCore.Rect2D.GetHeight ⟨0, 2, 2, 0⟩ ∧
      uparams.res_scale = 1 ∧
      evs.filter Event.isConstruct = [Event.constructSurface uparams vfmt uimg] ∧
      evs.filter Event.isTransfer =
        [Event.copyBufferToImage uimg
           ⟨0, VideoCore.Rect2D.GetHeight ⟨0, 2, 2, 0⟩,
             VideoCore.Rect2D.GetWidth ⟨0, 2, 2, 0⟩, 0⟩ 0 n,
         Event.blitImage uimg 90
           ⟨0, VideoCore.Rect2D.GetHeight ⟨0, 2, 2, 0⟩,
             VideoCore.Rect2D.GetWidth ⟨0, 2, 2, 0⟩, 0⟩
           (VideoCore.Rect2D.scale ⟨0, 2, 2, 0⟩ 2)
           (Vulkan.MakeFilter VideoCore.PixelFormat.RGBA8)] :=
  spec_C4 _ _ _ _ (by decide) (by decide) (by decide) (Or.inl rfl)

/-- Claim C5: a `Download` on a DepthStencil surface never copies pixel
data from the depth-stencil image to the staging buffer directly.  It
constructs an `eR32Uint` color surface (with `res_scale` 1), converts the
depth-stencil image into it with the compute blit, downscales the
converted image with an ordinary blit when the resolution scale is not 1,
and the only image-to-buffer copy in the recorded trace reads from the
converted image, which is distinct from the depth-stencil image.  The
hypotheses `hwf`, `hown` and `hnh` are the recycler well-formedness and
single-owner invariants (spec section 3): recycled allocations carry their
tag's format, no recycled allocation aliases the live surface's image, and
the live image is not the next fresh handle. -/
theorem spec_C5 (inst : Vulkan.Instance) (st : Vulkan.AllocState) (s : Vulkan.Surface)
    (dl : VideoCore.BufferTextureCopy)
    (hds : s.params.type = VideoCore.SurfaceType.DepthStencil)
    (hpf : s.params.pixel_format ≠ VideoCore.PixelFormat.Invalid)
    (hwf : ∀ p ∈ st.texture_recycler,
      (p : Vulkan.HostTextureTag × Vulkan.ImageAlloc).2.format = p.1.format)
    (hown : ∀ p ∈ st.texture_recycler,
      (p : Vulkan.HostTextureTag × Vulkan.ImageAlloc).2.image ≠ s.alloc.image)
    (hnh : s.alloc.image ≠ st.next_handle) :
    ∃ st2 evs r32p r32img,
      Vulkan.DownloadF inst 2 st s dl = some (st2, evs) ∧
      evs.filter Event.isConstruct =
        [Event.constructSurface r32p Vulkan.Format.eR32Uint r32img] ∧
      r32p.type = VideoCore.SurfaceType.Color ∧
      r32p.res_scale = 1 ∧
      r32img ≠ s.alloc.image ∧
      evs.filter Event.isTransfer =
        [Event.computeBlitD24S8toR32 s.alloc.image r32img] ++
        (if s.params.res_scale ≠ 1 then
          [Event.blitImage r32img r32img
            ⟨0, (dl.texture_rect.scale s.params.res_scale).GetHeight,
              (dl.texture_rect.scale s.params.res_scale).GetWidth, 0⟩
            ⟨0, dl.texture_rect.GetHeight, dl.texture_rect.GetWidth, 0⟩
            (Vulkan.MakeFilter s.params.pixel_format)]
        else []) ++
        [Event.copyImageToBuffer r32img
          ⟨0, dl.texture_rect.GetHeight, dl.texture_rect.GetWidth, 0⟩
          (if s.params.res_scale ≠ 1 then 1 else 0)] ∧
      (∀ img rect lvl, Event.copyImageToBuffer img rect lvl ∈ evs → img = r32img) := by
  obtain ⟨st1, alloc, evs1, hmk, hfm, hT1, hC1, hsrc⟩ :=
    Vulkan.mkSurfaceWithFormat_spec st
      { s.params with
        width := (dl.texture_rect.scale s.params.res_scale).GetWidth
        stride := (dl.texture_rect.scale s.params.res_scale).GetWidth
        height := (dl.texture_rect.scale s.params.res_scale).GetHeight
        type := VideoCore.SurfaceType.Color
        res_scale := 1 } Vulkan.Format.eR32Uint hpf (by decide) hwf
  have hneq : alloc.image ≠ s.alloc.image := by
    rcases hsrc with ⟨t, hmem⟩ | hi
    · exact hown (t, alloc) hmem
    · intro hc
      rw [hi] at hc
      exact hnh hc.symm
  by_cases hsc : s.params.res_scale = 1
  · have hns : ¬(s.params.res_scale ≠ 1) := fun hc => hc hsc
    have hinner : Vulkan.DownloadF inst 1 st1
        ⟨{ s.params with
           width := (dl.texture_rect.scale s.params.res_scale).GetWidth
           stride := (dl.texture_rect.scale s.params.res_scale).GetWidth
           height := (dl.texture_rect.scale s.params.res_scale).GetHeight
           type := VideoCore.SurfaceType.Color
           res_scale := 1 }, alloc⟩
        { buffer_offset := dl.buffer_offset, buffer_size := dl.buffer_size,
          texture_rect := ⟨0, dl.texture_rect.GetHeight, dl.texture_rect.GetWidth, 0⟩,
          texture_level := 0 } =
        some (st1, [Event.copyImageToBuffer alloc.image
          ⟨0, dl.texture_rect.GetHeight, dl.texture_rect.GetWidth, 0⟩ 0]) :=
      Vulkan.DownloadF_direct inst 0 st1 _ _ (fun hc => VideoCore.SurfaceType.noConfusion hc) rfl
    refine ⟨st1,
      evs1 ++ [Event.computeBlitD24S8toR32 s.alloc.image alloc.image] ++ [] ++
        [Event.copyImageToBuffer alloc.image
          ⟨0, dl.texture_rect.GetHeight, dl.texture_rect.GetWidth, 0⟩ 0],
      { s.params with
        width := (dl.texture_rect.scale s.params.res_scale).GetWidth
        stride := (dl.texture_rect.scale s.params.res_scale).GetWidth
        height := (dl.texture_rect.scale s.params.res_scale).GetHeight
        type := VideoCore.SurfaceType.Color
        res_scale := 1 },
      alloc.image, ?_, ?_, rfl, rfl, hneq, ?_, ?_⟩
    · rw [show (2 : Nat) = 1 + 1 from rfl, Vulkan.DownloadF]
      rw [if_pos hds]
      simp only [hmk, if_neg hns, hinner]
    · simp only [List.filter_append, hC1]
      rfl
    · simp only [List.filter_append, hT1, if_neg hns]
      rfl
    · intro img rect lvl hmem
      simp only [List.mem_append, List.mem_singleton, List.not_mem_nil, or_false] at hmem
      rcases hmem with (hm1 | hm2) | hm4
      · have : Event.copyImageToBuffer img rect lvl ∈ evs1.filter Event.isTransfer :=
          List.mem_filter.mpr ⟨hm1, rfl⟩
        rw [hT1] at this
        cases this
      · exact Event.noConfusion hm2
      · injection hm4 with h4a h4b h4c
  · have hinner : Vulkan.DownloadF inst 1 st1
        ⟨{ s.params with
           width := (dl.texture_rect.scale s.params.res_scale).GetWidth
           stride := (dl.texture_rect.scale s.params.res_scale).GetWidth
           height := (dl.texture_rect.scale s.params.res_scale).GetHeight
           type := VideoCore.SurfaceType.Color
           res_scale := 1 }, alloc⟩
        { buffer_offset := dl.buffer_offset, buffer_size := dl.buffer_size,
          texture_rect := ⟨0, dl.texture_rect.GetHeight, dl.texture_rect.GetWidth, 0⟩,
          texture_level := 1 } =
        some (st1, [Event.copyImageToBuffer alloc.image
          ⟨0, dl.texture_rect.GetHeight, dl.texture_rect.GetWidth, 0⟩ 1]) :=
      Vulkan.DownloadF_direct inst 0 st1 _ _ (fun hc => VideoCore.SurfaceType.noConfusion hc) rfl
    have hblit3 : Vulkan.BlitTextures st1
        ⟨{ s.params with
           width := (dl.texture_rect.scale s.params.res_scale).GetWidth
           stride := (dl.texture_rect.scale s.params.res_scale).GetWidth
           height := (dl.texture_rect.scale s.params.res_scale).GetHeight
           type := VideoCore.SurfaceType.Color
           res_scale := 1 }, alloc⟩
        ⟨{ s.params with
           width := (dl.texture_rect.scale s.params.res_scale).GetWidth
           stride := (dl.texture_rect.scale s.params.res_scale).GetWidth
           height := (dl.texture_rect.scale s.params.res_scale).GetHeight
           type := VideoCore.SurfaceType.Color
           res_scale := 1 }, alloc⟩
        { src_level := 0, dst_level := 1, src_layer := 0, dst_layer := 0,
          src_rect := ⟨0, (dl.texture_rect.scale s.params.res_scale).GetHeight,
            (dl.texture_rect.scale s.params.res_scale).GetWidth, 0⟩,
          dst_rect := ⟨0, dl.texture_rect.GetHeight, dl.texture_rect.GetWidth, 0⟩ } =
        some (st1, [Event.blitImage alloc.image alloc.image
          ⟨0, (dl.texture_rect.scale s.params.res_scale).GetHeight,
            (dl.texture_rect.scale s.params.res_scale).GetWidth, 0⟩
          ⟨0, dl.texture_rect.GetHeight, dl.texture_rect.GetWidth, 0⟩
          (Vulkan.MakeFilter s.params.pixel_format)], true) :=
      Vulkan.BlitTextures_eq st1 _ _ _ Vulkan.Aspect.color rfl
    refine ⟨st1,
      evs1 ++ [Event.computeBlitD24S8toR32 s.alloc.image alloc.image] ++
        [Event.blitImage alloc.image alloc.image
          ⟨0, (dl.texture_rect.scale s.params.res_scale).GetHeight,
            (dl.texture_rect.scale s.params.res_scale).GetWidth, 0⟩
          ⟨0, dl.texture_rect.GetHeight, dl.texture_rect.GetWidth, 0⟩
          (Vulkan.MakeFilter s.params.pixel_format)] ++
        [Event.copyImageToBuffer alloc.image
          ⟨0, dl.texture_rect.GetHeight, dl.texture_rect.GetWidth, 0⟩ 1],
      { s.params with
        width := (dl.texture_rect.scale s.params.res_scale).GetWidth
        stride := (dl.texture_rect.scale s.params.res_scale).GetWidth
        height := (dl.texture_rect.scale s.params.res_scale).GetHeight
        type := VideoCore.SurfaceType.Color
        res_scale := 1 },
      alloc.image, ?_, ?_, rfl, rfl, hneq, ?_, ?_⟩
    · rw [show (2 : Nat) = 1 + 1 from rfl, Vulkan.DownloadF]
      rw [if_pos hds]
      simp only [hmk, if_pos hsc, hblit3, hinner]
    · simp only [List.filter_append, hC1]
      rfl
    · simp only [List.filter_append, hT1, if_pos hsc]
      rfl
    · intro img rect lvl hmem
      simp only [List.mem_append, List.mem_singleton] at hmem
      rcases hmem with ((hm1 | hm2) | hm3) | hm4
      · have : Event.copyImageToBuffer img rect lvl ∈ evs1.filter Event.isTransfer :=
          List.mem_filter.mpr ⟨hm1, rfl⟩
        rw [hT1] at this
        cases this
      · exact Event.noConfusion hm2
      · exact Event.noConfusion hm3
      · injection hm4 with h4a h4b h4c

/-- Witness for C5: a concrete unscaled D24S8 surface download. -/
theorem spec_C5_witness :
    ∃ st2 evs r32p r32img,
      Vulkan.DownloadF
        ⟨fun _ => { transfer_support := true, blit_support := true,
                    attachment_support := true, storage_support := true,
                    native := Vulkan.Format.eD24UnormS8Uint,
                    fallback := Vulkan.Format.eD32SfloatS8Uint }⟩ 2 ⟨[], 0, 0⟩
        ⟨{ width := 4, height := 4, stride := 4, levels := 1, res_scale := 1,
           pixel_format := VideoCore.PixelFormat.D24S8,
           texture_type := VideoCore.TextureType.Texture2D,
           type := VideoCore.SurfaceType.DepthStencil },
         { image := 90, image_view := 91, base_view := none, depth_view := some 93,
           stencil_view := some 94, storage_view := none, allocation := 92,
           format := Vulkan.Format.eD24UnormS8Uint,
           aspect := Vulkan.Aspect.depthStencil }⟩
        { buffer_offset := 0, buffer_size := 20,
          texture_rect := ⟨0, 2, 2, 0⟩, texture_level := 0 } = some (st2, evs) ∧
      evs.filter Event.isConstruct =
        [Event.constructSurface r32p Vulkan.Format.eR32Uint r32img] ∧
      r32p.type = VideoCore.SurfaceType.Color ∧
      r32p.res_scale = 1 ∧
      r32img ≠ 90 ∧
      (∀ img rect lvl, Event.copyImageToBuffer img rect lvl ∈ evs → img = r32img) := by
  obtain ⟨st2, evs, r32p, r32img, heq, hcon, hty2, hrs, hne, -, hnoc⟩ :=
    spec_C5
      ⟨fun _ => { transfer_support := true, blit_support := true,
                  attachment_support := true, storage_support := true,
                  native := Vulkan.Format.eD24UnormS8Uint,
                  fallback := Vulkan.Format.eD32SfloatS8Uint }⟩ ⟨[], 0, 0⟩
      ⟨{ width := 4, height := 4, stride := 4, levels := 1, res_scale := 1,
         pixel_format := VideoCore.PixelFormat.D24S8,
         texture_type := VideoCore.TextureType.Texture2D,
         type := VideoCore.SurfaceType.DepthStencil },
       { image := 90, image_view := 91, base_view := none, depth_view := some 93,
         stencil_view := some 94, storage_view := none, allocation := 92,
         format := Vulkan.Format.eD24UnormS8Uint,
         aspect := Vulkan.Aspect.depthStencil }⟩
      { buffer_offset := 0, buffer_size := 20,
        texture_rect := ⟨0, 2, 2, 0⟩, texture_level := 0 }
      rfl (by decide) (by intro p hp; cases hp) (by intro p hp; cases hp) (by decide)
  exact ⟨st2, evs, r32p, r32img, heq, hcon, hty2, hrs, hne, hnoc⟩
